import Mathlib

/-!
Shallow embedding of the accelerator-context lifecycle manager of pycbc
(`src/pycbc/clayer/opencl/gpu_inspiral_gpuutils.c` and
`src/pycbc/datavector/clayer/opencl/datavectoropencl.c`).

Hardware handles are modelled as natural numbers, hardware-API status codes
as integers (0 = CL_SUCCESS, the documented negative codes otherwise).  The
behaviour of the OpenCL runtime is supplied by an oracle environment `Env`
giving the status and handle returned by each hardware call, so that a run
of `gpuinsp_InitGPU` is a pure function of the environment and of the
incoming context struct.  Resource actions (creations, releases, frees) are
recorded in an event trace, diagnostic output in string lists.
-/

namespace Pycbc

/-- The switch table of `gpuinsp_getErrMessage`: each recognized OpenCL
status code paired with the string the corresponding `case` copies out.
Values of the `CL_*` constants are those of the OpenCL headers. -/
def clErrorTable : List (Int × String) :=
  [ (0, "CL_SUCCESS"),
    (-1, "CL_DEVICE_NOT_FOUND"),
    (-2, "CL_DEVICE_NOT_AVAILABLE"),
    (-3, "CL_COMPILER_NOT_AVAILABLE"),
    (-4, "CL_MEM_OBJECT_ALLOCATION_FAILURE"),
    (-5, "CL_OUT_OF_RESOURCES"),
    (-6, "CL_OUT_OF_HOST_MEMORY"),
    (-7, "CL_PROFILING_INFO_NOT_AVAILABLE"),
    (-8, "CL_MEM_COPY_OVERLAP"),
    (-9, "CL_IMAGE_FORMAT_MISMATCH"),
    (-10, "CL_IMAGE_FORMAT_NOT_SUPPORTED"),
    (-11, "CL_BUILD_PROGRAM_FAILURE"),
    (-12, "CL_MAP_FAILURE"),
    (-30, "CL_INVALID_VALUE"),
    (-31, "CL_INVALID_DEVICE_TYPE"),
    (-32, "CL_INVALID_PLATFORM"),
    (-33, "CL_INVALID_DEVICE"),
    (-34, "CL_INVALID_CONTEXT"),
    (-35, "CL_INVALID_QUEUE_PROPERTIES"),
    (-36, "CL_INVALID_COMMAND_QUEUE"),
    (-37, "CL_INVALID_HOST_PTR"),
    (-38, "CL_INVALID_MEM_OBJECT"),
    (-39, "CL_INVALID_IMAGE_FORMAT_DESCRIPTOR"),
    (-40, "CL_INVALID_IMAGE_SIZE"),
    (-41, "CL_INVALID_SAMPLER"),
    (-42, "CL_INVALID_BINARY"),
    (-43, "CL_INVALID_BUILD_OPTIONS"),
    (-44, "CL_INVALID_PROGRAM"),
    (-45, "CL_INVALID_PROGRAM_EXECUTABLE"),
    (-46, "CL_INVALID_KERNEL_NAME"),
    (-47, "CL_INVALID_KERNEL_DEFINITION"),
    (-48, "CL_INVALID_KERNEL"),
    (-49, "CL_INVALID_ARG_INDEX"),
    (-50, "CL_INVALID_ARG_VALUE"),
    (-51, "CL_INVALID_ARG_SIZE"),
    (-52, "CL_INVALID_KERNEL_ARGS"),
    (-53, "CL_INVALID_WORK_DIMENSION"),
    (-54, "CL_INVALID_WORK_GROUP_SIZE"),
    (-55, "CL_INVALID_WORK_ITEM_SIZE"),
    (-56, "CL_INVALID_GLOBAL_OFFSET"),
    (-57, "CL_INVALID_EVENT_WAIT_LIST"),
    (-58, "CL_INVALID_EVENT"),
    (-59, "CL_INVALID_OPERATION"),
    (-60, "CL_INVALID_GL_OBJECT"),
    (-61, "CL_INVALID_BUFFER_SIZE"),
    (-62, "CL_INVALID_MIP_LEVEL"),
    (-63, "CL_INVALID_GLOBAL_WORK_SIZE") ]

/-- `gpuinsp_getErrMessage`: the switch over `err`, with the `default`
branch copying the sentinel `"Unknown error"`. -/
def gpuinsp_getErrMessage (err : Int) : String :=
  (clErrorTable.lookup err).getD "Unknown error"

/-- The diagnostic line produced by
`fprintf(stderr, "ERROR: %s (%d, %s).\n", errstr, err, errMessage)`. -/
def mkErrLine (errstr : String) (err : Int) : String :=
  "ERROR: " ++ errstr ++ " (" ++ toString err ++ ", " ++
    gpuinsp_getErrMessage err ++ ")."

/-- `gpuinsp_checkError`: returns `err` unchanged; when `err` is not
`CL_SUCCESS` it also emits one diagnostic line to stderr. -/
def gpuinsp_checkError (err : Int) (errstr : String) : Int × List String :=
  if err ≠ 0 then (err, [mkErrLine errstr err]) else (err, [])

/-- The `cl_context_t` struct: platform, device, context and the two
command queues, each an opaque handle that may be unset (NULL). -/
structure ClCtx where
  platform : Option Nat := none
  device : Option Nat := none
  context : Option Nat := none
  kernel_queue : Option Nat := none
  io_queue : Option Nat := none
deriving DecidableEq, Repr

/-- Resource actions performed by a run, in program order. -/
inductive Event where
  | createContextEv (h : Nat)
  | createQueue (q : Nat)
  | createBuffer (m : Nat)
  | allocHost
  | releaseQueue (q : Nat)
  | releaseMem (m : Nat)
  | freeHost
deriving DecidableEq, Repr

/-- `gpuinsp_DestroyGPU`: releases `kernel_queue` when set, then
`io_queue` when set, and returns 0.  The struct is only read, never
written (in particular the queue fields are not cleared). -/
def gpuinsp_DestroyGPU (c : ClCtx) : Int × List Event :=
  let ev1 : List Event :=
    match c.kernel_queue with
    | some q => [Event.releaseQueue q]
    | none => []
  let ev2 : List Event :=
    match c.io_queue with
    | some q => [Event.releaseQueue q]
    | none => []
  (0, ev1 ++ ev2)

/-- A C local variable that may still be uninitialized (indeterminate). -/
inductive CVar (α : Type) where
  | uninit
  | val (a : α)
deriving DecidableEq, Repr

/-- What the runtime reports about one enumerated device: the status of
its `CL_DEVICE_AVAILABLE` query, the availability flag itself, and the
status and result of its `CL_DEVICE_NAME` query. -/
structure DeviceInfo where
  id : Nat
  available : Bool
  availStatus : Int
  name : String
  nameStatus : Int
deriving DecidableEq, Repr

/-- Oracle describing what every hardware call of one run of
`gpuinsp_InitGPU` returns. -/
structure Env where
  platformCountStatus : Int
  platforms : List Nat
  platformListStatus : Int
  deviceCountStatus : Int
  deviceListStatus : Int
  devices : List DeviceInfo
  createContextStatus : Int
  contextHandle : Nat
  kernelQueueStatus : Int
  kernelQueueHandle : Nat
  ioQueueStatus : Int
  ioQueueHandle : Nat
  createBufferStatus : Int
  bufferHandle : Nat
  writeStatus : Int
deriving DecidableEq, Repr

/-- Result of a run of `gpuinsp_InitGPU`: return status, final struct,
event trace, stderr and stdout lines, and whether the cleanup block
tested the local `testdata_gpu` while it was still uninitialized. -/
structure InitResult where
  status : Int
  ctx : ClCtx
  events : List Event
  stderrLines : List String
  stdoutLines : List String
  uninitReadTestdataGpu : Bool
deriving DecidableEq, Repr

/-- The `cleanup:` label of `gpuinsp_InitGPU`: call `gpuinsp_DestroyGPU`,
free `testdata_cpu` when non-NULL, test `testdata_gpu` and release it when
non-NULL, then return the current `err`.  Testing `testdata_gpu` while it
is uninitialized is recorded in `uninitReadTestdataGpu`. -/
def cleanupExit (err : Int) (c : ClCtx) (testdata_cpu : Bool)
    (testdata_gpu : CVar (Option Nat)) (evs : List Event)
    (serr sout : List String) : InitResult :=
  let evs1 := evs ++ (gpuinsp_DestroyGPU c).2
  let evs2 := if testdata_cpu then evs1 ++ [Event.freeHost] else evs1
  match testdata_gpu with
  | CVar.uninit =>
      { status := err, ctx := c, events := evs2, stderrLines := serr,
        stdoutLines := sout, uninitReadTestdataGpu := true }
  | CVar.val none =>
      { status := err, ctx := c, events := evs2, stderrLines := serr,
        stdoutLines := sout, uninitReadTestdataGpu := false }
  | CVar.val (some m) =>
      { status := err, ctx := c, events := evs2 ++ [Event.releaseMem m],
        stderrLines := serr, stdoutLines := sout,
        uninitReadTestdataGpu := false }

/-- Outcome of the device-selection `for` loop. -/
inductive LoopOut where
  | foundDevice (d : Nat)
  | earlyReturn
  | cleanupErr (e : Int)
  | exhausted (avail : Option Nat)
deriving DecidableEq, Repr

/-- The device-selection loop of `gpuinsp_InitGPU` (lines 261-286).
`avail` is the local `AvailableDevice`, `i` the loop index.  Per the
source, after the `else` branch of an unavailable device the loop body
tests `AvailableDevice == NULL` and returns -1 from inside the loop. -/
def deviceLoop (avail : Option Nat) (i : Nat) :
    List DeviceInfo → List String × List String × LoopOut
  | [] => ([], [], LoopOut.exhausted avail)
  | d :: rest =>
    let r1 := gpuinsp_checkError d.availStatus "Determining number of platforms"
    if r1.1 ≠ 0 then (r1.2, [], LoopOut.cleanupErr r1.1)
    else if d.available then
      let r2 := gpuinsp_checkError d.nameStatus "Determining number of platforms"
      if r2.1 ≠ 0 then (r1.2 ++ r2.2, [], LoopOut.cleanupErr r2.1)
      else (r1.2 ++ r2.2, [], LoopOut.foundDevice d.id)
    else
      let sout :=
        if d.nameStatus = 0 then
          ["Device " ++ d.name ++ " available for compute."]
        else
          ["Device #" ++ toString i ++ " not available for compute."]
      if avail = none then (r1.2, sout, LoopOut.earlyReturn)
      else
        let rec' := deviceLoop avail (i + 1) rest
        (r1.2 ++ rec'.1, sout ++ rec'.2.1, rec'.2.2)

/-- Continuation of `gpuinsp_InitGPU` after the device loop: context
creation (whose status is never passed to `gpuinsp_checkError`), the two
command queues, and the self-test allocation and transfer. -/
def afterLoop (env : Env) (c : ClCtx) (serr sout : List String) : InitResult :=
  let ctxH : Option Nat :=
    if env.createContextStatus = 0 then some env.contextHandle else none
  let c1 := { c with context := ctxH }
  let evs : List Event :=
    match ctxH with
    | some h => [Event.createContextEv h]
    | none => []
  let kq : Option Nat :=
    if env.kernelQueueStatus = 0 then some env.kernelQueueHandle else none
  let c2 := { c1 with kernel_queue := kq }
  let evs := evs ++ (match kq with | some q => [Event.createQueue q] | none => [])
  let r5 := gpuinsp_checkError env.kernelQueueStatus "Determining number of platforms"
  if r5.1 ≠ 0 then cleanupExit r5.1 c2 false CVar.uninit evs (serr ++ r5.2) sout
  else
  let ioq : Option Nat :=
    if env.ioQueueStatus = 0 then some env.ioQueueHandle else none
  let c3 := { c2 with io_queue := ioq }
  let evs := evs ++ (match ioq with | some q => [Event.createQueue q] | none => [])
  let r6 := gpuinsp_checkError env.ioQueueStatus "Determining number of platforms"
  if r6.1 ≠ 0 then cleanupExit r6.1 c3 false CVar.uninit evs (serr ++ r6.2) sout
  else
  let evs := evs ++ [Event.allocHost]
  let bufH : Option Nat :=
    if env.createBufferStatus = 0 then some env.bufferHandle else none
  let evs := evs ++ (match bufH with | some m => [Event.createBuffer m] | none => [])
  let r7 := gpuinsp_checkError env.createBufferStatus "Test allocation in GPU memory"
  if r7.1 ≠ 0 then cleanupExit r7.1 c3 true (CVar.val bufH) evs (serr ++ r7.2) sout
  else
  let r8 := gpuinsp_checkError env.writeStatus "Test writing to  GPU memory"
  if r8.1 ≠ 0 then cleanupExit r8.1 c3 true (CVar.val bufH) evs (serr ++ r8.2) sout
  else
  { status := 0, ctx := c3, events := evs, stderrLines := serr,
    stdoutLines := sout, uninitReadTestdataGpu := false }

/-- `gpuinsp_InitGPU` (lines 222-313), as a pure function of the runtime
oracle `env` and the incoming struct `c`.  The `device_id` parameter of
the C function is unused by its body and omitted.  The two no-platform /
no-available-device paths return -1 by a plain `return`, bypassing the
cleanup label. -/
def gpuinsp_InitGPU (env : Env) (c : ClCtx) : InitResult :=
  let numPlatforms : Nat :=
    if env.platformCountStatus = 0 then env.platforms.length else 0
  let r1 := gpuinsp_checkError env.platformCountStatus "Determining number of platforms"
  if r1.1 ≠ 0 then cleanupExit r1.1 c false CVar.uninit [] r1.2 []
  else if 0 < numPlatforms then
    let r2 := gpuinsp_checkError env.platformListStatus "Determining number of platforms"
    if r2.1 ≠ 0 then cleanupExit r2.1 c false CVar.uninit [] r2.2 []
    else
    let c1 := { c with platform := some (env.platforms.headD 0) }
    let r3 := gpuinsp_checkError env.deviceCountStatus "Determining number of platforms"
    if r3.1 ≠ 0 then cleanupExit r3.1 c1 false CVar.uninit [] r3.2 []
    else
    let r4 := gpuinsp_checkError env.deviceListStatus "Determining number of platforms"
    if r4.1 ≠ 0 then cleanupExit r4.1 c1 false CVar.uninit [] r4.2 []
    else
    match deviceLoop none 0 env.devices with
    | (ls, os, LoopOut.cleanupErr e) =>
        cleanupExit e c1 false CVar.uninit [] ls os
    | (ls, os, LoopOut.earlyReturn) =>
        { status := -1, ctx := c1, events := [], stderrLines := ls,
          stdoutLines := os, uninitReadTestdataGpu := false }
    | (ls, os, LoopOut.foundDevice d) =>
        afterLoop env { c1 with device := some d } ls os
    | (ls, os, LoopOut.exhausted _) =>
        afterLoop env c1 ls os
  else
    { status := -1, ctx := c, events := [], stderrLines := [],
      stdoutLines := [], uninitReadTestdataGpu := false }

/-! Leak accounting over event traces. -/

/-- Queue handles created during the run. -/
def createdQueues (evs : List Event) : List Nat :=
  evs.filterMap fun e =>
    match e with
    | Event.createQueue q => some q
    | _ => none

/-- Queue handles released during the run. -/
def releasedQueues (evs : List Event) : List Nat :=
  evs.filterMap fun e =>
    match e with
    | Event.releaseQueue q => some q
    | _ => none

/-- Device-memory handles created during the run. -/
def createdMems (evs : List Event) : List Nat :=
  evs.filterMap fun e =>
    match e with
    | Event.createBuffer m => some m
    | _ => none

/-- Device-memory handles released during the run. -/
def releasedMems (evs : List Event) : List Nat :=
  evs.filterMap fun e =>
    match e with
    | Event.releaseMem m => some m
    | _ => none

/-- Host scratch allocations performed during the run. -/
def hostAllocCount (evs : List Event) : Nat :=
  evs.countP fun e => decide (e = Event.allocHost)

/-- Host scratch frees performed during the run. -/
def hostFreeCount (evs : List Event) : Nat :=
  evs.countP fun e => decide (e = Event.freeHost)

/-- No dangling handle: every queue and device-memory handle the run
created was also released, and every host scratch allocation was freed.
(Context handles are excluded: per the spec their lifetime is owned by
the runtime and teardown never releases them.) -/
def noDanglingB (evs : List Event) : Bool :=
  (createdQueues evs).all (fun q => (releasedQueues evs).contains q) &&
  (createdMems evs).all (fun m => (releasedMems evs).contains m) &&
  (hostAllocCount evs == hostFreeCount evs)

/-- How many times the trace releases the queue handle `q`. -/
def releaseQueueCount (evs : List Event) (q : Nat) : Nat :=
  evs.countP fun e => decide (e = Event.releaseQueue q)

/-! Scenario environments used by concrete runs. -/

/-- The spec's device-selection scenario: one platform, two devices, the
first unavailable and the second available, every hardware call
succeeding. -/
def envTwoDevices : Env :=
  { platformCountStatus := 0, platforms := [1], platformListStatus := 0,
    deviceCountStatus := 0, deviceListStatus := 0,
    devices := [⟨11, false, 0, "D1", 0⟩, ⟨12, true, 0, "D2", 0⟩],
    createContextStatus := 0, contextHandle := 3,
    kernelQueueStatus := 0, kernelQueueHandle := 4,
    ioQueueStatus := 0, ioQueueHandle := 5,
    createBufferStatus := 0, bufferHandle := 7, writeStatus := 0 }

/-- A run in which every hardware call succeeds: one platform, one
available device. -/
def envAllSuccess : Env :=
  { platformCountStatus := 0, platforms := [1], platformListStatus := 0,
    deviceCountStatus := 0, deviceListStatus := 0,
    devices := [⟨12, true, 0, "D2", 0⟩],
    createContextStatus := 0, contextHandle := 3,
    kernelQueueStatus := 0, kernelQueueHandle := 4,
    ioQueueStatus := 0, ioQueueHandle := 5,
    createBufferStatus := 0, bufferHandle := 7, writeStatus := 0 }

/-!
The device vector buffer lifecycle
(`src/pycbc/datavector/clayer/opencl/datavectoropencl.c`).  A mock heap
records each allocated region as a handle paired with its size in bytes;
the allocation counter of the round-trip scenario is the number of live
regions.
-/

/-- The `meta_data_t` sub-struct: element count, element size in bytes,
sample spacing (`delta_x`, a C double, modelled as a rational). -/
structure MetaData where
  vector_length : Nat
  element_size_bytes : Nat
  delta_x : Rat
deriving DecidableEq, Repr

/-- The `real_vector_single_t` struct as the constructor and destructor
in `datavectoropencl.c` use it: a single-handle `data` field plus the
`real_data` and `imag_data` fields the constructor actually assigns. -/
structure real_vector_single_t where
  meta_data : MetaData
  data : Option Nat := none
  real_data : Option Nat := none
  imag_data : Option Nat := none
deriving DecidableEq, Repr

/-- Mock heap: a fresh-handle counter and the live regions
(handle, size in bytes). -/
structure Heap where
  next : Nat
  live : List (Nat × Nat)
deriving DecidableEq, Repr

/-- The empty mock heap (allocation counter zero). -/
def heap0 : Heap := ⟨0, []⟩

/-- `calloc(count, size)`: allocate one region of `count * size` bytes,
returning its fresh handle. -/
def calloc (h : Heap) (count size : Nat) : Nat × Heap :=
  (h.next, ⟨h.next + 1, (h.next, count * size) :: h.live⟩)

/-- `free(r)`: a no-op on NULL, otherwise removes the region. -/
def freeRegion (h : Heap) (r : Option Nat) : Heap :=
  match r with
  | none => h
  | some x => { h with live := h.live.filter fun p => decide (p.1 ≠ x) }

/-- Modelled from the spec: `CONSTRUCTOR_TEMPLATE(vector_t, element_t)` is
declared in `datavector.h`, which is not among the available sources.  Per
spec section 4.6 the constructor creates the vector object and records the
element count, the element size and the sample spacing; the handle fields
start out unset.  `elementSizeBytes` stands for `sizeof(element_t)`,
which is 4 for `float`. -/
def CONSTRUCTOR_TEMPLATE (length : Nat) (elementSizeBytes : Nat)
    (delta_x : Rat) : real_vector_single_t :=
  { meta_data := ⟨length, elementSizeBytes, delta_x⟩ }

/-- `new_real_vector_single_t` (lines 40-56): after the template, the body
callocs a region into `real_data` and a second equally-sized region into
`imag_data`; the `data` field is never assigned. -/
def new_real_vector_single_t (length : Nat) (delta_x : Rat) (h : Heap) :
    real_vector_single_t × Heap :=
  let c0 := CONSTRUCTOR_TEMPLATE length 4 delta_x
  let a1 := calloc h c0.meta_data.vector_length c0.meta_data.element_size_bytes
  let c1 := { c0 with real_data := some a1.1 }
  let a2 := calloc a1.2 c1.meta_data.vector_length c1.meta_data.element_size_bytes
  let c2 := { c1 with imag_data := some a2.1 }
  (c2, a2.2)

/-- `delete_real_vector_single_t` (lines 58-62): frees `p->data` (and the
struct itself, which the mock heap does not count as a region). -/
def delete_real_vector_single_t (p : real_vector_single_t) (h : Heap) : Heap :=
  freeRegion h p.data

/-! Helper lemmas about association-list lookup, shared by the error
translator theorems. -/

theorem lookup_eq_none_of_not_mem_keys {β : Type} (e : Int) :
    ∀ l : List (Int × β), e ∉ l.map Prod.fst → l.lookup e = none := by
  intro l
  induction l with
  | nil => intro _; rfl
  | cons p t ih =>
    intro h
    obtain ⟨k, v⟩ := p
    rw [List.map_cons, List.mem_cons] at h
    push_neg at h
    obtain ⟨h1, h2⟩ := h
    rw [List.lookup_cons]
    have hb : (e == k) = false := beq_eq_false_iff_ne.mpr h1
    simp [hb, ih h2]

theorem mem_of_lookup_eq_some {β : Type} {e : Int} {v : β} :
    ∀ {l : List (Int × β)}, l.lookup e = some v → (e, v) ∈ l := by
  intro l
  induction l with
  | nil => intro h; simp at h
  | cons p t ih =>
    intro h
    obtain ⟨k, w⟩ := p
    rw [List.lookup_cons] at h
    by_cases hk : e = k
    · subst hk
      simp at h
      subst h
      exact List.mem_cons_self _ _
    · have hb : (e == k) = false := beq_eq_false_iff_ne.mpr hk
      rw [hb] at h
      exact List.mem_cons_of_mem _ (ih h)

/-- C10: the error translator is total: it maps every recognized status
code to that code's fixed documented name, maps every unrecognized
integer to the "Unknown error" sentinel, and never returns an empty
string.  (It is a plain function of its argument, hence has no side
effects.) -/
theorem C10_translate_total :
    (∀ p ∈ clErrorTable, gpuinsp_getErrMessage p.1 = p.2) ∧
    (∀ e : Int, e ∉ clErrorTable.map Prod.fst →
      gpuinsp_getErrMessage e = "Unknown error") ∧
    (∀ e : Int, gpuinsp_getErrMessage e ≠ "") := by
  refine ⟨by decide, ?_, ?_⟩
  · intro e he
    unfold gpuinsp_getErrMessage
    rw [lookup_eq_none_of_not_mem_keys e clErrorTable he]
    rfl
  · intro e
    unfold gpuinsp_getErrMessage
    cases h : clErrorTable.lookup e with
    | none => simp
    | some v =>
      have hv : (e, v) ∈ clErrorTable := mem_of_lookup_eq_some h
      have hall : ∀ p ∈ clErrorTable, p.2 ≠ "" := by decide
      simpa using hall _ hv

/-- Witness for C10 at concrete inputs: the unrecognized code 12345 maps
to the sentinel, the recognized code -4 maps to its documented name, and
the sentinel of 12345 is not empty. -/
theorem C10_translate_total_witness :
    gpuinsp_getErrMessage 12345 = "Unknown error" ∧
    gpuinsp_getErrMessage (-4) = "CL_MEM_OBJECT_ALLOCATION_FAILURE" ∧
    gpuinsp_getErrMessage 12345 ≠ "" :=
  ⟨C10_translate_total.2.1 12345 (by decide),
   C10_translate_total.1 (-4, "CL_MEM_OBJECT_ALLOCATION_FAILURE") (by decide),
   C10_translate_total.2.2 12345⟩

/-- C9: the error guard returns the status code unchanged; on success it
writes nothing to the diagnostic stream; on failure it writes exactly one
line built from the label, the numeric code and the translated name. -/
theorem C9_checkError_spec (err : Int) (label : String) :
    (gpuinsp_checkError err label).1 = err ∧
    (err = 0 → (gpuinsp_checkError err label).2 = []) ∧
    (err ≠ 0 → (gpuinsp_checkError err label).2 =
      ["ERROR: " ++ label ++ " (" ++ toString err ++ ", " ++
        gpuinsp_getErrMessage err ++ ")."]) := by
  refine ⟨?_, ?_, ?_⟩
  · by_cases h : err = 0 <;> simp [gpuinsp_checkError, h]
  · intro h; simp [gpuinsp_checkError, h]
  · intro h; simp [gpuinsp_checkError, mkErrLine, h]

/-- Witness for C9: at the failing code -4 with label "Test" the guard
returns -4 and writes the one diagnostic line; at the success code 0 it
writes nothing. -/
theorem C9_checkError_spec_witness :
    (gpuinsp_checkError (-4) "Test").1 = -4 ∧
    (gpuinsp_checkError 0 "Test").2 = [] ∧
    (gpuinsp_checkError (-4) "Test").2 =
      ["ERROR: " ++ "Test" ++ " (" ++ toString (-4 : Int) ++ ", " ++
        gpuinsp_getErrMessage (-4) ++ ")."] :=
  ⟨(C9_checkError_spec (-4) "Test").1,
   (C9_checkError_spec 0 "Test").2.1 rfl,
   (C9_checkError_spec (-4) "Test").2.2 (by decide)⟩

/-- C1: at the spec's own device-selection scenario (one platform, the
first device unavailable, the second available, every hardware call
succeeding) the build does not scan on to the second device: the check
`if (AvailableDevice == NULL) return -1` sits inside the loop body, so
the run returns -1 right after the first unavailable device, the context
is never given a device, and no handle is ever created, although an
available device (D2, id 12) was enumerated. -/
theorem C1_deviceScan_code_bug :
    (gpuinsp_InitGPU envTwoDevices {}).status = -1 ∧
    (gpuinsp_InitGPU envTwoDevices {}).ctx.device = none ∧
    (gpuinsp_InitGPU envTwoDevices {}).events = [] ∧
    envTwoDevices.devices.map DeviceInfo.available = [false, true] := by
  decide

/-- Counterexample for C2: a run in which the hardware call of step 3
(`clCreateContext`) returns the non-success status -6 while every other
call succeeds.  The claim says every such run short-circuits, rolls back
and propagates the status; instead the build returns 0 (success), emits
no diagnostic, and performs no rollback. -/
theorem C2_counterexample :
    ({ envAllSuccess with createContextStatus := -6 } : Env).createContextStatus ≠ 0 ∧
    (gpuinsp_InitGPU { envAllSuccess with createContextStatus := -6 } {}).status = 0 ∧
    (gpuinsp_InitGPU { envAllSuccess with createContextStatus := -6 } {}).stderrLines = [] ∧
    (gpuinsp_InitGPU { envAllSuccess with createContextStatus := -6 } {}).events =
      [Event.createQueue 4, Event.createQueue 5, Event.allocHost,
       Event.createBuffer 7] := by
  decide

/-- Counterexample for C4: on a context whose two queue fields are set,
`gpuinsp_DestroyGPU` never clears them, so two successive calls release
the kernel queue handle twice — a duplicate release, contradicting the
claim that the second call performs no duplicate release. -/
theorem C4_counterexample :
    ¬ (releaseQueueCount
        ((gpuinsp_DestroyGPU ⟨none, none, none, some 4, some 5⟩).2 ++
         (gpuinsp_DestroyGPU ⟨none, none, none, some 4, some 5⟩).2) 4 ≤ 1) := by
  decide

/-- Counterexample for C5: in the run where every construction step
succeeds, the build returns 0 straight from line 305; the self-test
device buffer it created (handle 7) is never released and the host
scratch buffer is never freed, contradicting the claim that both are
released before returning. -/
theorem C5_counterexample :
    (gpuinsp_InitGPU envAllSuccess {}).status = 0 ∧
    Event.createBuffer 7 ∈ (gpuinsp_InitGPU envAllSuccess {}).events ∧
    Event.releaseMem 7 ∉ (gpuinsp_InitGPU envAllSuccess {}).events ∧
    Event.freeHost ∉ (gpuinsp_InitGPU envAllSuccess {}).events := by
  decide

/-- Counterexample for C6: the no-platform run returns -1, but -1 is
exactly CL_DEVICE_NOT_FOUND, a status code a hardware call can return:
a run whose `clGetDeviceIDs` count query fails with -1 propagates the
same value -1, so the caller cannot distinguish the two conditions by
the returned code. -/
theorem C6_counterexample :
    (gpuinsp_InitGPU { envAllSuccess with platforms := [] } {}).status =
      (gpuinsp_InitGPU { envAllSuccess with deviceCountStatus := -1 } {}).status ∧
    ({ envAllSuccess with deviceCountStatus := -1 } : Env).deviceCountStatus ≠ 0 ∧
    (-1, "CL_DEVICE_NOT_FOUND") ∈ clErrorTable := by
  decide

/-- C7: `testdata_gpu` is declared without an initializer and first
assigned only at the self-test allocation step, yet the cleanup block
tests it on every failure path.  On the run whose very first hardware
call fails with -6, and on the run whose kernel-queue creation fails,
the cleanup branch tests `testdata_gpu` while it is still uninitialized;
only failures at or after the self-test allocation find it initialized. -/
theorem C7_uninit_testdata_gpu :
    (gpuinsp_InitGPU { envAllSuccess with platformCountStatus := -6 } {}).uninitReadTestdataGpu
      = true ∧
    (gpuinsp_InitGPU { envAllSuccess with kernelQueueStatus := -6 } {}).uninitReadTestdataGpu
      = true ∧
    (gpuinsp_InitGPU { envAllSuccess with writeStatus := -5 } {}).uninitReadTestdataGpu
      = false := by
  decide

/-- C8: the round trip of the spec's scenario on the mock heap.  The
constructor `new_real_vector_single_t 1024 1.0` callocs two regions of
1024 * 4 bytes (into `real_data` and `imag_data`) instead of the one
region the claim states, leaves the `data` field unset, and the
immediately following `delete_real_vector_single_t` frees only `p->data`
— so it frees nothing and the mock allocation counter stays at 2 instead
of returning to 0. -/
theorem C8_roundTrip_leak :
    (new_real_vector_single_t 1024 1 heap0).2.live =
      [(1, 4096), (0, 4096)] ∧
    (new_real_vector_single_t 1024 1 heap0).1.data = none ∧
    (new_real_vector_single_t 1024 1 heap0).1.real_data = some 0 ∧
    (new_real_vector_single_t 1024 1 heap0).1.imag_data = some 1 ∧
    (delete_real_vector_single_t (new_real_vector_single_t 1024 1 heap0).1
      (new_real_vector_single_t 1024 1 heap0).2).live.length = 2 := by
  decide

/-- C4 (amended): `gpuinsp_DestroyGPU` returns 0 and attempts the two
releases independently of one another — it releases `kernel_queue`
whenever that field is set and `io_queue` whenever that field is set,
whatever the other field holds — and is a faultless no-op on a context
with both fields unset.  But it never clears the fields, so calling it
twice on a context with a set queue field releases that queue handle
once per call: two releases in total, a duplicate. -/
theorem C4_destroy_amended (c : ClCtx) :
    (gpuinsp_DestroyGPU c).1 = 0 ∧
    (∀ q, c.kernel_queue = some q →
      Event.releaseQueue q ∈ (gpuinsp_DestroyGPU c).2) ∧
    (∀ q, c.io_queue = some q →
      Event.releaseQueue q ∈ (gpuinsp_DestroyGPU c).2) ∧
    (c.kernel_queue = none → c.io_queue = none →
      (gpuinsp_DestroyGPU c).2 = []) ∧
    (∀ q, c.kernel_queue = some q → c.io_queue ≠ some q →
      releaseQueueCount
        ((gpuinsp_DestroyGPU c).2 ++ (gpuinsp_DestroyGPU c).2) q = 2) := by
  obtain ⟨p, d, x, kq, ioq⟩ := c
  refine ⟨rfl, ?_, ?_, ?_, ?_⟩
  · intro q hk
    cases kq with
    | none => simp at hk
    | some k =>
      cases hk
      cases ioq <;> simp [gpuinsp_DestroyGPU]
  · intro q hi
    cases ioq with
    | none => simp at hi
    | some i =>
      cases hi
      cases kq <;> simp [gpuinsp_DestroyGPU]
  · intro hk hi
    cases hk
    cases hi
    simp [gpuinsp_DestroyGPU]
  · intro q hk hne
    cases kq with
    | none => simp at hk
    | some k =>
      cases hk
      cases ioq with
      | none => simp [gpuinsp_DestroyGPU, releaseQueueCount]
      | some i =>
        have hiq : i ≠ q := by
          intro h
          exact hne (by rw [h])
        simp [gpuinsp_DestroyGPU, releaseQueueCount, List.countP_cons, hiq]

/-- Witness for C4 at a concrete context with both queues set: destroy
returns 0, releases queue 4 (the kernel queue) and queue 5 (the io
queue), and two successive calls release queue 4 twice. -/
theorem C4_destroy_amended_witness :
    (gpuinsp_DestroyGPU ⟨none, none, none, some 4, some 5⟩).1 = 0 ∧
    Event.releaseQueue 4 ∈ (gpuinsp_DestroyGPU ⟨none, none, none, some 4, some 5⟩).2 ∧
    Event.releaseQueue 5 ∈ (gpuinsp_DestroyGPU ⟨none, none, none, some 4, some 5⟩).2 ∧
    releaseQueueCount
      ((gpuinsp_DestroyGPU ⟨none, none, none, some 4, some 5⟩).2 ++
       (gpuinsp_DestroyGPU ⟨none, none, none, some 4, some 5⟩).2) 4 = 2 :=
  ⟨(C4_destroy_amended ⟨none, none, none, some 4, some 5⟩).1,
   (C4_destroy_amended ⟨none, none, none, some 4, some 5⟩).2.1 4 rfl,
   (C4_destroy_amended ⟨none, none, none, some 4, some 5⟩).2.2.1 5 rfl,
   (C4_destroy_amended ⟨none, none, none, some 4, some 5⟩).2.2.2.2 4 rfl (by decide)⟩

/-! Reduction lemmas for symbolic runs of `gpuinsp_InitGPU`, shared by the
error-handling theorems. -/

theorem initGPU_to_afterLoop_found (env : Env) (c : ClCtx) (d : DeviceInfo)
    (ds : List DeviceInfo)
    (h0 : env.platformCountStatus = 0) (h1 : env.platforms ≠ [])
    (h2 : env.platformListStatus = 0) (h3 : env.deviceCountStatus = 0)
    (h4 : env.deviceListStatus = 0) (h5 : env.devices = d :: ds)
    (h6 : d.available = true) (h7 : d.availStatus = 0) (h8 : d.nameStatus = 0) :
    gpuinsp_InitGPU env c =
      afterLoop env
        { c with platform := some (env.platforms.headD 0), device := some d.id }
        [] [] := by
  have hp : 0 < env.platforms.length := List.length_pos.mpr h1
  unfold gpuinsp_InitGPU
  simp [gpuinsp_checkError, h0, h2, h3, h4, h5, hp, deviceLoop, h6, h7, h8]

theorem initGPU_to_afterLoop_nil (env : Env) (c : ClCtx)
    (h0 : env.platformCountStatus = 0) (h1 : env.platforms ≠ [])
    (h2 : env.platformListStatus = 0) (h3 : env.deviceCountStatus = 0)
    (h4 : env.deviceListStatus = 0) (h5 : env.devices = []) :
    gpuinsp_InitGPU env c =
      afterLoop env { c with platform := some (env.platforms.headD 0) } [] [] := by
  have hp : 0 < env.platforms.length := List.length_pos.mpr h1
  unfold gpuinsp_InitGPU
  simp [gpuinsp_checkError, h0, h2, h3, h4, h5, hp, deviceLoop]

theorem afterLoop_write_fail (env : Env) (c : ClCtx) (sout : List String)
    (h5 : env.kernelQueueStatus = 0) (h6 : env.ioQueueStatus = 0)
    (h7 : env.createBufferStatus = 0) (hw : env.writeStatus ≠ 0) :
    (afterLoop env c [] sout).status = env.writeStatus ∧
    (afterLoop env c [] sout).stderrLines =
      [mkErrLine "Test writing to  GPU memory" env.writeStatus] ∧
    Event.releaseQueue env.kernelQueueHandle ∈ (afterLoop env c [] sout).events ∧
    Event.releaseQueue env.ioQueueHandle ∈ (afterLoop env c [] sout).events ∧
    Event.freeHost ∈ (afterLoop env c [] sout).events ∧
    Event.releaseMem env.bufferHandle ∈ (afterLoop env c [] sout).events ∧
    noDanglingB (afterLoop env c [] sout).events = true ∧
    (afterLoop env c [] sout).ctx.kernel_queue = some env.kernelQueueHandle ∧
    (afterLoop env c [] sout).ctx.io_queue = some env.ioQueueHandle := by
  unfold afterLoop
  by_cases hc : env.createContextStatus = 0 <;>
    simp [gpuinsp_checkError, h5, h6, h7, hw, hc, cleanupExit, gpuinsp_DestroyGPU,
      noDanglingB, createdQueues, releasedQueues, createdMems, releasedMems,
      hostAllocCount, hostFreeCount, List.countP_cons]

theorem afterLoop_kernel_fail (env : Env) (c : ClCtx) (sout : List String)
    (hk : env.kernelQueueStatus ≠ 0) :
    (afterLoop env c [] sout).status = env.kernelQueueStatus ∧
    (afterLoop env c [] sout).stderrLines =
      [mkErrLine "Determining number of platforms" env.kernelQueueStatus] ∧
    noDanglingB (afterLoop env c [] sout).events = true := by
  unfold afterLoop
  by_cases hc : env.createContextStatus = 0 <;>
    cases hio : c.io_queue <;>
    simp [gpuinsp_checkError, hk, hc, hio, cleanupExit, gpuinsp_DestroyGPU,
      noDanglingB, createdQueues, releasedQueues, createdMems, releasedMems,
      hostAllocCount, hostFreeCount, List.countP_cons]

theorem afterLoop_io_fail (env : Env) (c : ClCtx) (sout : List String)
    (h5 : env.kernelQueueStatus = 0) (hio : env.ioQueueStatus ≠ 0) :
    (afterLoop env c [] sout).status = env.ioQueueStatus ∧
    (afterLoop env c [] sout).stderrLines =
      [mkErrLine "Determining number of platforms" env.ioQueueStatus] ∧
    Event.releaseQueue env.kernelQueueHandle ∈ (afterLoop env c [] sout).events ∧
    noDanglingB (afterLoop env c [] sout).events = true := by
  unfold afterLoop
  by_cases hc : env.createContextStatus = 0 <;>
    simp [gpuinsp_checkError, h5, hio, hc, cleanupExit, gpuinsp_DestroyGPU,
      noDanglingB, createdQueues, releasedQueues, createdMems, releasedMems,
      hostAllocCount, hostFreeCount, List.countP_cons]

theorem afterLoop_buffer_fail (env : Env) (c : ClCtx) (sout : List String)
    (h5 : env.kernelQueueStatus = 0) (h6 : env.ioQueueStatus = 0)
    (hb : env.createBufferStatus ≠ 0) :
    (afterLoop env c [] sout).status = env.createBufferStatus ∧
    (afterLoop env c [] sout).stderrLines =
      [mkErrLine "Test allocation in GPU memory" env.createBufferStatus] ∧
    Event.releaseQueue env.kernelQueueHandle ∈ (afterLoop env c [] sout).events ∧
    Event.releaseQueue env.ioQueueHandle ∈ (afterLoop env c [] sout).events ∧
    Event.freeHost ∈ (afterLoop env c [] sout).events ∧
    noDanglingB (afterLoop env c [] sout).events = true := by
  unfold afterLoop
  by_cases hc : env.createContextStatus = 0 <;>
    simp [gpuinsp_checkError, h5, h6, hb, hc, cleanupExit, gpuinsp_DestroyGPU,
      noDanglingB, createdQueues, releasedQueues, createdMems, releasedMems,
      hostAllocCount, hostFreeCount, List.countP_cons]

theorem afterLoop_success (env : Env) (c : ClCtx) (sout : List String)
    (hcc : env.createContextStatus = 0)
    (h5 : env.kernelQueueStatus = 0) (h6 : env.ioQueueStatus = 0)
    (h7 : env.createBufferStatus = 0) (h8 : env.writeStatus = 0) :
    (afterLoop env c [] sout).status = 0 ∧
    (afterLoop env c [] sout).stderrLines = [] ∧
    (afterLoop env c [] sout).ctx =
      { c with context := some env.contextHandle,
               kernel_queue := some env.kernelQueueHandle,
               io_queue := some env.ioQueueHandle } ∧
    (afterLoop env c [] sout).events =
      [Event.createContextEv env.contextHandle,
       Event.createQueue env.kernelQueueHandle,
       Event.createQueue env.ioQueueHandle,
       Event.allocHost,
       Event.createBuffer env.bufferHandle] := by
  unfold afterLoop
  simp [gpuinsp_checkError, hcc, h5, h6, h7, h8]

theorem noDanglingB_destroy (c : ClCtx) :
    noDanglingB (gpuinsp_DestroyGPU c).2 = true := by
  obtain ⟨p, d, x, kq, ioq⟩ := c
  cases kq <;> cases ioq <;>
    simp [gpuinsp_DestroyGPU, noDanglingB, createdQueues, releasedQueues,
      createdMems, releasedMems, hostAllocCount, hostFreeCount, List.countP_cons]

theorem initGPU_platformCount_fail (env : Env) (c : ClCtx)
    (hp : env.platformCountStatus ≠ 0) :
    (gpuinsp_InitGPU env c).status = env.platformCountStatus ∧
    (gpuinsp_InitGPU env c).stderrLines =
      [mkErrLine "Determining number of platforms" env.platformCountStatus] ∧
    noDanglingB (gpuinsp_InitGPU env c).events = true := by
  have he : (gpuinsp_InitGPU env c).events = (gpuinsp_DestroyGPU c).2 := by
    unfold gpuinsp_InitGPU
    simp [gpuinsp_checkError, hp, cleanupExit]
  refine ⟨?_, ?_, he ▸ noDanglingB_destroy c⟩ <;>
  · unfold gpuinsp_InitGPU
    simp [gpuinsp_checkError, hp, cleanupExit]

theorem initGPU_platformList_fail (env : Env) (c : ClCtx)
    (h0 : env.platformCountStatus = 0) (h1 : env.platforms ≠ [])
    (hp : env.platformListStatus ≠ 0) :
    (gpuinsp_InitGPU env c).status = env.platformListStatus ∧
    (gpuinsp_InitGPU env c).stderrLines =
      [mkErrLine "Determining number of platforms" env.platformListStatus] ∧
    noDanglingB (gpuinsp_InitGPU env c).events = true := by
  have hl : 0 < env.platforms.length := List.length_pos.mpr h1
  have he : (gpuinsp_InitGPU env c).events = (gpuinsp_DestroyGPU c).2 := by
    unfold gpuinsp_InitGPU
    simp [gpuinsp_checkError, h0, hl, hp, cleanupExit]
  refine ⟨?_, ?_, he ▸ noDanglingB_destroy c⟩ <;>
  · unfold gpuinsp_InitGPU
    simp [gpuinsp_checkError, h0, hl, hp, cleanupExit]

theorem initGPU_deviceCount_fail (env : Env) (c : ClCtx)
    (h0 : env.platformCountStatus = 0) (h1 : env.platforms ≠ [])
    (h2 : env.platformListStatus = 0)
    (hp : env.deviceCountStatus ≠ 0) :
    (gpuinsp_InitGPU env c).status = env.deviceCountStatus ∧
    (gpuinsp_InitGPU env c).stderrLines =
      [mkErrLine "Determining number of platforms" env.deviceCountStatus] ∧
    noDanglingB (gpuinsp_InitGPU env c).events = true := by
  have hl : 0 < env.platforms.length := List.length_pos.mpr h1
  have he : (gpuinsp_InitGPU env c).events =
      (gpuinsp_DestroyGPU { c with platform := some (env.platforms.headD 0) }).2 := by
    unfold gpuinsp_InitGPU
    simp [gpuinsp_checkError, h0, hl, h2, hp, cleanupExit]
  refine ⟨?_, ?_, he ▸ noDanglingB_destroy _⟩ <;>
  · unfold gpuinsp_InitGPU
    simp [gpuinsp_checkError, h0, hl, h2, hp, cleanupExit]

theorem initGPU_deviceList_fail (env : Env) (c : ClCtx)
    (h0 : env.platformCountStatus = 0) (h1 : env.platforms ≠ [])
    (h2 : env.platformListStatus = 0) (h3 : env.deviceCountStatus = 0)
    (hp : env.deviceListStatus ≠ 0) :
    (gpuinsp_InitGPU env c).status = env.deviceListStatus ∧
    (gpuinsp_InitGPU env c).stderrLines =
      [mkErrLine "Determining number of platforms" env.deviceListStatus] ∧
    noDanglingB (gpuinsp_InitGPU env c).events = true := by
  have hl : 0 < env.platforms.length := List.length_pos.mpr h1
  have he : (gpuinsp_InitGPU env c).events =
      (gpuinsp_DestroyGPU { c with platform := some (env.platforms.headD 0) }).2 := by
    unfold gpuinsp_InitGPU
    simp [gpuinsp_checkError, h0, hl, h2, h3, hp, cleanupExit]
  refine ⟨?_, ?_, he ▸ noDanglingB_destroy _⟩ <;>
  · unfold gpuinsp_InitGPU
    simp [gpuinsp_checkError, h0, hl, h2, h3, hp, cleanupExit]

theorem initGPU_availQuery_fail (env : Env) (c : ClCtx) (d : DeviceInfo)
    (ds : List DeviceInfo)
    (h0 : env.platformCountStatus = 0) (h1 : env.platforms ≠ [])
    (h2 : env.platformListStatus = 0) (h3 : env.deviceCountStatus = 0)
    (h4 : env.deviceListStatus = 0) (h5 : env.devices = d :: ds)
    (hp : d.availStatus ≠ 0) :
    (gpuinsp_InitGPU env c).status = d.availStatus ∧
    (gpuinsp_InitGPU env c).stderrLines =
      [mkErrLine "Determining number of platforms" d.availStatus] ∧
    noDanglingB (gpuinsp_InitGPU env c).events = true := by
  have hl : 0 < env.platforms.length := List.length_pos.mpr h1
  have he : (gpuinsp_InitGPU env c).events =
      (gpuinsp_DestroyGPU { c with platform := some (env.platforms.headD 0) }).2 := by
    unfold gpuinsp_InitGPU
    simp [gpuinsp_checkError, h0, hl, h2, h3, h4, h5, deviceLoop, hp, cleanupExit]
  refine ⟨?_, ?_, he ▸ noDanglingB_destroy _⟩ <;>
  · unfold gpuinsp_InitGPU
    simp [gpuinsp_checkError, h0, hl, h2, h3, h4, h5, deviceLoop, hp, cleanupExit]

theorem initGPU_nameQuery_fail (env : Env) (c : ClCtx) (d : DeviceInfo)
    (ds : List DeviceInfo)
    (h0 : env.platformCountStatus = 0) (h1 : env.platforms ≠ [])
    (h2 : env.platformListStatus = 0) (h3 : env.deviceCountStatus = 0)
    (h4 : env.deviceListStatus = 0) (h5 : env.devices = d :: ds)
    (h6 : d.available = true) (h7 : d.availStatus = 0)
    (hp : d.nameStatus ≠ 0) :
    (gpuinsp_InitGPU env c).status = d.nameStatus ∧
    (gpuinsp_InitGPU env c).stderrLines =
      [mkErrLine "Determining number of platforms" d.nameStatus] ∧
    noDanglingB (gpuinsp_InitGPU env c).events = true := by
  have hl : 0 < env.platforms.length := List.length_pos.mpr h1
  have he : (gpuinsp_InitGPU env c).events =
      (gpuinsp_DestroyGPU { c with platform := some (env.platforms.headD 0) }).2 := by
    unfold gpuinsp_InitGPU
    simp [gpuinsp_checkError, h0, hl, h2, h3, h4, h5, deviceLoop, h6, h7, hp, cleanupExit]
  refine ⟨?_, ?_, he ▸ noDanglingB_destroy _⟩ <;>
  · unfold gpuinsp_InitGPU
    simp [gpuinsp_checkError, h0, hl, h2, h3, h4, h5, deviceLoop, h6, h7, hp, cleanupExit]

theorem afterLoop_ctx_unchecked (env : Env) (c : ClCtx) (sout : List String)
    (h5 : env.kernelQueueStatus = 0) (h6 : env.ioQueueStatus = 0)
    (h7 : env.createBufferStatus = 0) (h8 : env.writeStatus = 0) :
    (afterLoop env c [] sout).status = 0 ∧
    (afterLoop env c [] sout).stderrLines = [] := by
  unfold afterLoop
  by_cases hc : env.createContextStatus = 0 <;>
    simp [gpuinsp_checkError, h5, h6, h7, h8, hc]

theorem initGPU_firstUnavailable (env : Env) (c : ClCtx) (d : DeviceInfo)
    (ds : List DeviceInfo)
    (h0 : env.platformCountStatus = 0) (h1 : env.platforms ≠ [])
    (h2 : env.platformListStatus = 0) (h3 : env.deviceCountStatus = 0)
    (h4 : env.deviceListStatus = 0) (h5 : env.devices = d :: ds)
    (h6 : d.available = false) (h7 : d.availStatus = 0) :
    (gpuinsp_InitGPU env c).status = -1 ∧
    (gpuinsp_InitGPU env c).events = [] ∧
    (gpuinsp_InitGPU env c).stderrLines = [] := by
  have hl : 0 < env.platforms.length := List.length_pos.mpr h1
  unfold gpuinsp_InitGPU
  by_cases hn : d.nameStatus = 0 <;>
    simp [gpuinsp_checkError, h0, hl, h2, h3, h4, h5, deviceLoop, h6, h7, hn]

/-- C3: in every run that reaches the self-test transfer with both
command queues created (all earlier checked calls succeeded, the device
list empty or headed by an available device) and whose synchronous
host-to-device transfer returns a non-success status, the build returns
exactly that status, and its trace releases both command queues, frees
the host scratch buffer and releases the self-test device buffer,
leaving no dangling queue, buffer or host allocation. -/
theorem C3_selfTest_failure (env : Env) (c : ClCtx)
    (h0 : env.platformCountStatus = 0) (h1 : env.platforms ≠ [])
    (h2 : env.platformListStatus = 0) (h3 : env.deviceCountStatus = 0)
    (h4 : env.deviceListStatus = 0)
    (hd : env.devices = [] ∨ ∃ d ds, env.devices = d :: ds ∧
      d.available = true ∧ d.availStatus = 0 ∧ d.nameStatus = 0)
    (h5 : env.kernelQueueStatus = 0) (h6 : env.ioQueueStatus = 0)
    (h7 : env.createBufferStatus = 0) (hw : env.writeStatus ≠ 0) :
    (gpuinsp_InitGPU env c).status = env.writeStatus ∧
    Event.releaseQueue env.kernelQueueHandle ∈ (gpuinsp_InitGPU env c).events ∧
    Event.releaseQueue env.ioQueueHandle ∈ (gpuinsp_InitGPU env c).events ∧
    Event.freeHost ∈ (gpuinsp_InitGPU env c).events ∧
    Event.releaseMem env.bufferHandle ∈ (gpuinsp_InitGPU env c).events ∧
    noDanglingB (gpuinsp_InitGPU env c).events = true := by
  rcases hd with hnil | ⟨d, ds, hds, hav, has, hns⟩
  · rw [initGPU_to_afterLoop_nil env c h0 h1 h2 h3 h4 hnil]
    have h := afterLoop_write_fail env
      { c with platform := some (env.platforms.headD 0) } [] h5 h6 h7 hw
    exact ⟨h.1, h.2.2.1, h.2.2.2.1, h.2.2.2.2.1, h.2.2.2.2.2.1, h.2.2.2.2.2.2.1⟩
  · rw [initGPU_to_afterLoop_found env c d ds h0 h1 h2 h3 h4 hds hav has hns]
    have h := afterLoop_write_fail env
      { c with platform := some (env.platforms.headD 0), device := some d.id }
      [] h5 h6 h7 hw
    exact ⟨h.1, h.2.2.1, h.2.2.2.1, h.2.2.2.2.1, h.2.2.2.2.2.1, h.2.2.2.2.2.2.1⟩

/-- Witness for C3 at the concrete run `envAllSuccess` with the transfer
failing with -5: the build returns -5 and the trace releases queue 4,
queue 5, the host scratch and buffer 7, with nothing dangling. -/
theorem C3_selfTest_failure_witness :
    (gpuinsp_InitGPU { envAllSuccess with writeStatus := -5 } {}).status = -5 ∧
    Event.releaseQueue 4 ∈
      (gpuinsp_InitGPU { envAllSuccess with writeStatus := -5 } {}).events ∧
    Event.releaseQueue 5 ∈
      (gpuinsp_InitGPU { envAllSuccess with writeStatus := -5 } {}).events ∧
    Event.freeHost ∈
      (gpuinsp_InitGPU { envAllSuccess with writeStatus := -5 } {}).events ∧
    Event.releaseMem 7 ∈
      (gpuinsp_InitGPU { envAllSuccess with writeStatus := -5 } {}).events ∧
    noDanglingB
      (gpuinsp_InitGPU { envAllSuccess with writeStatus := -5 } {}).events = true :=
  C3_selfTest_failure { envAllSuccess with writeStatus := -5 } {} rfl
    (by decide) rfl rfl rfl
    (Or.inr ⟨⟨12, true, 0, "D2", 0⟩, [], rfl, rfl, rfl, rfl⟩)
    rfl rfl rfl (by decide)

/-- C5 (amended): in a run where every construction step succeeds, the
build returns 0 with the fully populated context, but it returns straight
from line 305: the self-test device buffer it created is never released
and the host scratch buffer is never freed. -/
theorem C5_success_leak_amended (env : Env) (c : ClCtx) (d : DeviceInfo)
    (ds : List DeviceInfo)
    (h0 : env.platformCountStatus = 0) (h1 : env.platforms ≠ [])
    (h2 : env.platformListStatus = 0) (h3 : env.deviceCountStatus = 0)
    (h4 : env.deviceListStatus = 0) (h5 : env.devices = d :: ds)
    (h6 : d.available = true) (h7 : d.availStatus = 0) (h8 : d.nameStatus = 0)
    (hcc : env.createContextStatus = 0) (hk : env.kernelQueueStatus = 0)
    (hio : env.ioQueueStatus = 0) (hb : env.createBufferStatus = 0)
    (hw : env.writeStatus = 0) :
    (gpuinsp_InitGPU env c).status = 0 ∧
    (gpuinsp_InitGPU env c).ctx =
      { c with platform := some (env.platforms.headD 0), device := some d.id,
               context := some env.contextHandle,
               kernel_queue := some env.kernelQueueHandle,
               io_queue := some env.ioQueueHandle } ∧
    Event.createBuffer env.bufferHandle ∈ (gpuinsp_InitGPU env c).events ∧
    Event.releaseMem env.bufferHandle ∉ (gpuinsp_InitGPU env c).events ∧
    Event.freeHost ∉ (gpuinsp_InitGPU env c).events := by
  rw [initGPU_to_afterLoop_found env c d ds h0 h1 h2 h3 h4 h5 h6 h7 h8]
  have h := afterLoop_success env
    { c with platform := some (env.platforms.headD 0), device := some d.id }
    [] hcc hk hio hb hw
  refine ⟨h.1, ?_, ?_, ?_, ?_⟩
  · rw [h.2.2.1]
  · rw [h.2.2.2]; simp
  · rw [h.2.2.2]; simp
  · rw [h.2.2.2]; simp

/-- Witness for C5 (amended) at the all-success run: status 0, populated
context, buffer 7 created but never released, host scratch never freed. -/
theorem C5_success_leak_amended_witness :
    (gpuinsp_InitGPU envAllSuccess {}).status = 0 ∧
    (gpuinsp_InitGPU envAllSuccess {}).ctx =
      { platform := some 1, device := some 12, context := some 3,
        kernel_queue := some 4, io_queue := some 5 } ∧
    Event.createBuffer 7 ∈ (gpuinsp_InitGPU envAllSuccess {}).events ∧
    Event.releaseMem 7 ∉ (gpuinsp_InitGPU envAllSuccess {}).events ∧
    Event.freeHost ∉ (gpuinsp_InitGPU envAllSuccess {}).events :=
  C5_success_leak_amended envAllSuccess {} ⟨12, true, 0, "D2", 0⟩ []
    rfl (by decide) rfl rfl rfl rfl rfl rfl rfl rfl rfl rfl rfl rfl

/-- C6 (amended): with no platform, the build returns -1, touching no
handle and writing no diagnostic; with the first enumerated device
unavailable, it likewise returns -1 with no handle created.  But this -1
is not distinguishable from every hardware status code: it coincides with
CL_DEVICE_NOT_FOUND (-1), a status a hardware call can return and the
build can propagate. -/
theorem C6_noAccelerator_amended :
    (∀ (env : Env) (c : ClCtx), env.platformCountStatus = 0 →
      env.platforms = [] →
      gpuinsp_InitGPU env c =
        { status := -1, ctx := c, events := [], stderrLines := [],
          stdoutLines := [], uninitReadTestdataGpu := false }) ∧
    (∀ (env : Env) (c : ClCtx) (d : DeviceInfo) (ds : List DeviceInfo),
      env.platformCountStatus = 0 → env.platforms ≠ [] →
      env.platformListStatus = 0 → env.deviceCountStatus = 0 →
      env.deviceListStatus = 0 → env.devices = d :: ds →
      d.available = false → d.availStatus = 0 →
      (gpuinsp_InitGPU env c).status = -1 ∧
      (gpuinsp_InitGPU env c).events = []) ∧
    gpuinsp_getErrMessage (-1) = "CL_DEVICE_NOT_FOUND" := by
  refine ⟨?_, ?_, by decide⟩
  · intro env c h0 h1
    unfold gpuinsp_InitGPU
    simp [gpuinsp_checkError, h0, h1]
  · intro env c d ds h0 h1 h2 h3 h4 h5 h6 h7
    have h := initGPU_firstUnavailable env c d ds h0 h1 h2 h3 h4 h5 h6 h7
    exact ⟨h.1, h.2.1⟩

/-- Witness for C6 (amended): the two concrete -1 runs (no platform; one
unavailable device) and the collision of -1 with CL_DEVICE_NOT_FOUND. -/
theorem C6_noAccelerator_amended_witness :
    gpuinsp_InitGPU { envAllSuccess with platforms := [] } {} =
      { status := -1, ctx := {}, events := [], stderrLines := [],
        stdoutLines := [], uninitReadTestdataGpu := false } ∧
    (gpuinsp_InitGPU
      { envAllSuccess with devices := [⟨11, false, 0, "D1", 0⟩] } {}).status = -1 ∧
    gpuinsp_getErrMessage (-1) = "CL_DEVICE_NOT_FOUND" :=
  ⟨C6_noAccelerator_amended.1 { envAllSuccess with platforms := [] } {} rfl rfl,
   (C6_noAccelerator_amended.2.1 { envAllSuccess with devices := [⟨11, false, 0, "D1", 0⟩] }
      {} ⟨11, false, 0, "D1", 0⟩ [] rfl (by decide) rfl rfl rfl rfl rfl rfl).1,
   C6_noAccelerator_amended.2.2⟩

/-- C2 (amended): every construction step EXCEPT step 3 is gated by the
error guard.  Conjuncts 1-6: a non-success status from the platform-count,
platform-list, device-count, device-list, availability-query or name-query
call (all earlier checked calls succeeding) is logged by `check`,
short-circuits the remaining steps, triggers rollback (no dangling
handle) and is propagated as the return status.  Conjuncts 7-10: the same
for the kernel-queue, io-queue, self-test-allocation and self-test-write
calls.  Conjunct 11: the status of `clCreateContext` (step 3) is never
passed to `check` — when it alone is non-success and every checked call
succeeds, the build neither logs, nor short-circuits, nor rolls back,
nor propagates it: it returns 0. -/
theorem C2_guard_amended :
    (∀ (env : Env) (c : ClCtx), env.platformCountStatus ≠ 0 →
      (gpuinsp_InitGPU env c).status = env.platformCountStatus ∧
      (gpuinsp_InitGPU env c).stderrLines =
        [mkErrLine "Determining number of platforms" env.platformCountStatus] ∧
      noDanglingB (gpuinsp_InitGPU env c).events = true) ∧
    (∀ (env : Env) (c : ClCtx), env.platformCountStatus = 0 →
      env.platforms ≠ [] → env.platformListStatus ≠ 0 →
      (gpuinsp_InitGPU env c).status = env.platformListStatus ∧
      (gpuinsp_InitGPU env c).stderrLines =
        [mkErrLine "Determining number of platforms" env.platformListStatus] ∧
      noDanglingB (gpuinsp_InitGPU env c).events = true) ∧
    (∀ (env : Env) (c : ClCtx), env.platformCountStatus = 0 →
      env.platforms ≠ [] → env.platformListStatus = 0 →
      env.deviceCountStatus ≠ 0 →
      (gpuinsp_InitGPU env c).status = env.deviceCountStatus ∧
      (gpuinsp_InitGPU env c).stderrLines =
        [mkErrLine "Determining number of platforms" env.deviceCountStatus] ∧
      noDanglingB (gpuinsp_InitGPU env c).events = true) ∧
    (∀ (env : Env) (c : ClCtx), env.platformCountStatus = 0 →
      env.platforms ≠ [] → env.platformListStatus = 0 →
      env.deviceCountStatus = 0 → env.deviceListStatus ≠ 0 →
      (gpuinsp_InitGPU env c).status = env.deviceListStatus ∧
      (gpuinsp_InitGPU env c).stderrLines =
        [mkErrLine "Determining number of platforms" env.deviceListStatus] ∧
      noDanglingB (gpuinsp_InitGPU env c).events = true) ∧
    (∀ (env : Env) (c : ClCtx) (d : DeviceInfo) (ds : List DeviceInfo),
      env.platformCountStatus = 0 → env.platforms ≠ [] →
      env.platformListStatus = 0 → env.deviceCountStatus = 0 →
      env.deviceListStatus = 0 → env.devices = d :: ds →
      d.availStatus ≠ 0 →
      (gpuinsp_InitGPU env c).status = d.availStatus ∧
      (gpuinsp_InitGPU env c).stderrLines =
        [mkErrLine "Determining number of platforms" d.availStatus] ∧
      noDanglingB (gpuinsp_InitGPU env c).events = true) ∧
    (∀ (env : Env) (c : ClCtx) (d : DeviceInfo) (ds : List DeviceInfo),
      env.platformCountStatus = 0 → env.platforms ≠ [] →
      env.platformListStatus = 0 → env.deviceCountStatus = 0 →
      env.deviceListStatus = 0 → env.devices = d :: ds →
      d.available = true → d.availStatus = 0 → d.nameStatus ≠ 0 →
      (gpuinsp_InitGPU env c).status = d.nameStatus ∧
      (gpuinsp_InitGPU env c).stderrLines =
        [mkErrLine "Determining number of platforms" d.nameStatus] ∧
      noDanglingB (gpuinsp_InitGPU env c).events = true) ∧
    (∀ (env : Env) (c : ClCtx) (d : DeviceInfo) (ds : List DeviceInfo),
      env.platformCountStatus = 0 → env.platforms ≠ [] →
      env.platformListStatus = 0 → env.deviceCountStatus = 0 →
      env.deviceListStatus = 0 → env.devices = d :: ds →
      d.available = true → d.availStatus = 0 → d.nameStatus = 0 →
      env.kernelQueueStatus ≠ 0 →
      (gpuinsp_InitGPU env c).status = env.kernelQueueStatus ∧
      (gpuinsp_InitGPU env c).stderrLines =
        [mkErrLine "Determining number of platforms" env.kernelQueueStatus] ∧
      noDanglingB (gpuinsp_InitGPU env c).events = true) ∧
    (∀ (env : Env) (c : ClCtx) (d : DeviceInfo) (ds : List DeviceInfo),
      env.platformCountStatus = 0 → env.platforms ≠ [] →
      env.platformListStatus = 0 → env.deviceCountStatus = 0 →
      env.deviceListStatus = 0 → env.devices = d :: ds →
      d.available = true → d.availStatus = 0 → d.nameStatus = 0 →
      env.kernelQueueStatus = 0 → env.ioQueueStatus ≠ 0 →
      (gpuinsp_InitGPU env c).status = env.ioQueueStatus ∧
      (gpuinsp_InitGPU env c).stderrLines =
        [mkErrLine "Determining number of platforms" env.ioQueueStatus] ∧
      Event.releaseQueue env.kernelQueueHandle ∈ (gpuinsp_InitGPU env c).events ∧
      noDanglingB (gpuinsp_InitGPU env c).events = true) ∧
    (∀ (env : Env) (c : ClCtx) (d : DeviceInfo) (ds : List DeviceInfo),
      env.platformCountStatus = 0 → env.platforms ≠ [] →
      env.platformListStatus = 0 → env.deviceCountStatus = 0 →
      env.deviceListStatus = 0 → env.devices = d :: ds →
      d.available = true → d.availStatus = 0 → d.nameStatus = 0 →
      env.kernelQueueStatus = 0 → env.ioQueueStatus = 0 →
      env.createBufferStatus ≠ 0 →
      (gpuinsp_InitGPU env c).status = env.createBufferStatus ∧
      (gpuinsp_InitGPU env c).stderrLines =
        [mkErrLine "Test allocation in GPU memory" env.createBufferStatus] ∧
      noDanglingB (gpuinsp_InitGPU env c).events = true) ∧
    (∀ (env : Env) (c : ClCtx) (d : DeviceInfo) (ds : List DeviceInfo),
      env.platformCountStatus = 0 → env.platforms ≠ [] →
      env.platformListStatus = 0 → env.deviceCountStatus = 0 →
      env.deviceListStatus = 0 → env.devices = d :: ds →
      d.available = true → d.availStatus = 0 → d.nameStatus = 0 →
      env.kernelQueueStatus = 0 → env.ioQueueStatus = 0 →
      env.createBufferStatus = 0 → env.writeStatus ≠ 0 →
      (gpuinsp_InitGPU env c).status = env.writeStatus ∧
      (gpuinsp_InitGPU env c).stderrLines =
        [mkErrLine "Test writing to  GPU memory" env.writeStatus] ∧
      noDanglingB (gpuinsp_InitGPU env c).events = true) ∧
    (∀ (env : Env) (c : ClCtx) (d : DeviceInfo) (ds : List DeviceInfo),
      env.platformCountStatus = 0 → env.platforms ≠ [] →
      env.platformListStatus = 0 → env.deviceCountStatus = 0 →
      env.deviceListStatus = 0 → env.devices = d :: ds →
      d.available = true → d.availStatus = 0 → d.nameStatus = 0 →
      env.kernelQueueStatus = 0 → env.ioQueueStatus = 0 →
      env.createBufferStatus = 0 → env.writeStatus = 0 →
      env.createContextStatus ≠ 0 →
      (gpuinsp_InitGPU env c).status = 0 ∧
      (gpuinsp_InitGPU env c).stderrLines = []) := by
  refine ⟨?_, ?_, ?_, ?_, ?_, ?_, ?_, ?_, ?_, ?_, ?_⟩
  · exact initGPU_platformCount_fail
  · exact initGPU_platformList_fail
  · exact initGPU_deviceCount_fail
  · exact initGPU_deviceList_fail
  · intro env c d ds h0 h1 h2 h3 h4 h5 hp
    exact initGPU_availQuery_fail env c d ds h0 h1 h2 h3 h4 h5 hp
  · intro env c d ds h0 h1 h2 h3 h4 h5 h6 h7 hp
    exact initGPU_nameQuery_fail env c d ds h0 h1 h2 h3 h4 h5 h6 h7 hp
  · intro env c d ds h0 h1 h2 h3 h4 h5 h6 h7 h8 hk
    rw [initGPU_to_afterLoop_found env c d ds h0 h1 h2 h3 h4 h5 h6 h7 h8]
    exact afterLoop_kernel_fail env
      { c with platform := some (env.platforms.headD 0), device := some d.id }
      [] hk
  · intro env c d ds h0 h1 h2 h3 h4 h5 h6 h7 h8 hk hio
    rw [initGPU_to_afterLoop_found env c d ds h0 h1 h2 h3 h4 h5 h6 h7 h8]
    exact afterLoop_io_fail env
      { c with platform := some (env.platforms.headD 0), device := some d.id }
      [] hk hio
  · intro env c d ds h0 h1 h2 h3 h4 h5 h6 h7 h8 hk hio hb
    rw [initGPU_to_afterLoop_found env c d ds h0 h1 h2 h3 h4 h5 h6 h7 h8]
    have h := afterLoop_buffer_fail env
      { c with platform := some (env.platforms.headD 0), device := some d.id }
      [] hk hio hb
    exact ⟨h.1, h.2.1, h.2.2.2.2.2⟩
  · intro env c d ds h0 h1 h2 h3 h4 h5 h6 h7 h8 hk hio hb hw
    rw [initGPU_to_afterLoop_found env c d ds h0 h1 h2 h3 h4 h5 h6 h7 h8]
    have h := afterLoop_write_fail env
      { c with platform := some (env.platforms.headD 0), device := some d.id }
      [] hk hio hb hw
    exact ⟨h.1, h.2.1, h.2.2.2.2.2.2.1⟩
  · intro env c d ds h0 h1 h2 h3 h4 h5 h6 h7 h8 hk hio hb hw hcc
    rw [initGPU_to_afterLoop_found env c d ds h0 h1 h2 h3 h4 h5 h6 h7 h8]
    exact afterLoop_ctx_unchecked env
      { c with platform := some (env.platforms.headD 0), device := some d.id }
      [] hk hio hb hw

/-- Witness for C2 (amended) at concrete runs: a failing first checked
call (-6) is propagated with its diagnostic and a clean rollback, while
a failing `clCreateContext` (-6) with every checked call succeeding
yields return status 0 and an empty diagnostic stream. -/
theorem C2_guard_amended_witness :
    ((gpuinsp_InitGPU { envAllSuccess with platformCountStatus := -6 } {}).status = -6 ∧
     (gpuinsp_InitGPU { envAllSuccess with platformCountStatus := -6 } {}).stderrLines =
       [mkErrLine "Determining number of platforms" (-6)] ∧
     noDanglingB
       (gpuinsp_InitGPU { envAllSuccess with platformCountStatus := -6 } {}).events
       = true) ∧
    ((gpuinsp_InitGPU { envAllSuccess with createContextStatus := -6 } {}).status = 0 ∧
     (gpuinsp_InitGPU { envAllSuccess with createContextStatus := -6 } {}).stderrLines
       = []) :=
  ⟨C2_guard_amended.1 { envAllSuccess with platformCountStatus := -6 } {} (by decide),
   C2_guard_amended.2.2.2.2.2.2.2.2.2.2
     { envAllSuccess with createContextStatus := -6 } {} ⟨12, true, 0, "D2", 0⟩ []
     rfl (by decide) rfl rfl rfl rfl rfl rfl rfl rfl rfl rfl rfl (by decide)⟩

end Pycbc
